import Mathlib

/-!
Verification of the IP-Blogs backend (Express + Postgres blogging service).

This file shallowly embeds the three source files of the repository:

* `backend/src/middleware/validateUser.mjs` — the JWT auth middleware
  (`verifyToken`): token extraction by splitting the authorization header on
  the space character, 401 on a missing/empty token, 403 on failed
  verification, otherwise attach the decoded claims and call the next handler.
* `backend/src/routes/posts.mjs` — the multer upload configuration
  (MIME-prefix file filter, 10MB size cap, at most 5 files) and the post
  CRUD handlers.  The POST handler is the transactional orchestrator:
  BEGIN, insert the post row, sequentially upload each file to the media
  host, batch-insert attachment rows, COMMIT; ROLLBACK and respond 500 on
  any error inside the transaction.  PUT/DELETE filter on
  `id = $ AND user_id = $` and respond 403 when no row matched.
* the auth routes (register/login): bcrypt-hashed passwords, login signs a
  JWT with payload fields id and email and a 1-day expiry.

External collaborators (the JS runtime string functions, the database, the
Cloudinary uploader, bcrypt, jsonwebtoken) are modelled explicitly:

* the database is an explicit `DBState` (lists of rows) and the handlers
  return the post-request state together with an event trace recording the
  connection, transaction, query and upload calls they performed, in order;
* the uploader, the fallibility of the two INSERT statements, bcrypt and
  the JWT library are parameters (function- or option-valued), so theorems
  quantify over every possible behaviour of the collaborators;
* SQL NULL is `Option.none`: absent JS request-body fields are passed to
  parameterized queries as NULL, so row columns are `Option String`.
-/

/-! ## JS string primitives used by the source (modelled structurally) -/

/-- Model of the JS expression `s.split(" ")` on the character list of `s`:
split at every space, keeping empty segments, so that the empty list of
characters yields `[[]]` just as `"".split(" ")` yields `[""]` in JS. -/
def jsSplitSpaceAux : List Char → List (List Char)
  | [] => [[]]
  | ch :: cs =>
    let r := jsSplitSpaceAux cs
    if ch = ' ' then [] :: r
    else
      match r with
      | [] => [[ch]]
      | s :: rest => (ch :: s) :: rest

/-- Model of JS `s.split(" ")`. -/
def jsSplitSpace (s : String) : List String :=
  (jsSplitSpaceAux s.toList).map (fun l => String.mk l)

/-- Model of JS `s.startsWith(p)`: `p` is a prefix of `s`. -/
def jsStartsWith (s p : String) : Bool :=
  p.toList.isPrefixOf s.toList

/-- Model of the JS falsiness test `!x` on a string-or-undefined value:
true when the value is absent or the empty string. -/
def falsy : Option String → Bool
  | none => true
  | some s => s == ""

/-! ## Auth middleware (`validateUser.mjs`) -/

/-- Decoded JWT claims: the payload `{ id, email }` signed at login. -/
structure Claims where
  id : Nat
  email : String
deriving Repr, DecidableEq

/-- Token extraction of `validateUser.mjs` line 4:
`req.headers.authorization?.split(" ")[1]`.  `none` models both an absent
header (optional chaining short-circuits) and an out-of-range index. -/
def extractToken (authHeader : Option String) : Option String :=
  match authHeader with
  | none => none
  | some h => (jsSplitSpace h)[1]?

/-- Outcome of an Express middleware: an early response or `next()` with
the decoded user attached to the request. -/
inductive AuthResult where
  | unauthorized
  | forbidden
  | proceed (user : Claims)
deriving Repr, DecidableEq

/-- The `verifyToken` middleware of `validateUser.mjs`, parameterized by the
verification function of the `jsonwebtoken` library (with the process-wide
secret already applied): 401 when the extracted token is undefined or empty
(JS `if (!token)`), 403 when `jwt.verify` throws, else `req.user = decoded`
and `next()`. -/
def verifyToken (verify : String → Option Claims) (authHeader : Option String) : AuthResult :=
  match extractToken authHeader with
  | none => .unauthorized
  | some t =>
    if t == "" then .unauthorized
    else
      match verify t with
      | none => .forbidden
      | some c => .proceed c

/-! ## Multer configuration (`posts.mjs` lines 8–21) -/

/-- One uploaded file as multer presents it: original name, MIME type, the
in-memory buffer (kept opaque as a number) and its size in bytes. -/
structure File where
  originalname : String
  mimetype : String
  buffer : Nat
  size : Nat
deriving Repr, DecidableEq

/-- The multer `fileFilter`: accept when the MIME type starts with one of
`image/`, `video/`, `application/pdf`. -/
def fileFilterAllows (f : File) : Bool :=
  ["image/", "video/", "application/pdf"].any (fun t => jsStartsWith f.mimetype t)

/-- The multer `limits.fileSize` value: 10 * 1024 * 1024 bytes. -/
def maxFileSize : Nat := 10 * 1024 * 1024

/-- Acceptance test of `upload.array("files", 5)` with the configured
filter and size limit: at most 5 files, each of an allowed MIME type and
within the size cap.  When it fails, multer raises an error before the
route handler body ever runs. -/
def multerOk (files : List File) : Bool :=
  files.length ≤ 5 && files.all (fun f => fileFilterAllows f && f.size ≤ maxFileSize)

/-! ## Database model -/

/-- A row of the `posts` table.  Text columns are `Option String` because a
parameterized query receiving JS `undefined` writes SQL NULL. -/
structure PostRow where
  id : Nat
  user_id : Nat
  title : Option String
  description : Option String
  content : Option String
deriving Repr, DecidableEq

/-- A row of the `attachments` table. -/
structure AttachmentRow where
  post_id : Nat
  url : String
  type : String
deriving Repr, DecidableEq

/-- The visible database state: committed rows plus the id the next
inserted post receives from its generated-id sequence. -/
structure DBState where
  posts : List PostRow
  attachments : List AttachmentRow
  nextPostId : Nat
deriving Repr, DecidableEq

/-- One observable step of the POST handler, in the order performed:
pool checkout, BEGIN, the post INSERT, one Cloudinary upload call per file
actually sent, the batch attachment INSERT, COMMIT or ROLLBACK, release. -/
inductive DBEvent where
  | connect
  | beginTx
  | insertPost
  | uploadCall (f : File)
  | insertAttachments
  | commit
  | rollback
  | release
deriving Repr, DecidableEq

/-! ## Post creation orchestrator (`posts.mjs` lines 106–198) -/

/-- An attachment descriptor as built in the handler: the secure URL
returned by the uploader and the derived type tag. -/
structure Attachment where
  url : String
  type : String
deriving Repr, DecidableEq

/-- Behaviour of the collaborators during one POST request: the Cloudinary
upload outcome per file (error or secure URL), and an injected database
error, if any, at each of the two INSERT statements. -/
structure CreateEnv where
  uploadFn : File → Except String String
  insertPostErr : Option String
  insertAttachErr : Option String

/-- Type tag derivation of `posts.mjs` lines 155–159: `image` when the MIME
type starts with `image`, else `video` when it starts with `video`, else
`pdf`. -/
def attType (m : String) : String :=
  if jsStartsWith m "image" then "image"
  else if jsStartsWith m "video" then "video"
  else "pdf"

/-- Success test on an upload outcome. -/
def isOkB : Except String String → Bool
  | .ok _ => true
  | .error _ => false

/-- The secure URL of a successful upload outcome (dummy on error). -/
def okUrl : Except String String → String
  | .ok u => u
  | .error _ => ""

/-- The upload loop of `posts.mjs` lines 131–165: for each file in order,
await the Cloudinary upload; on success push `{url, type}`; on the first
failure stop and throw `File upload failed`.  Returns the files on which an
upload call was made, in call order, together with the outcome. -/
def uploadAll (up : File → Except String String) :
    List File → List File × Except String (List Attachment)
  | [] => ([], .ok [])
  | f :: fs =>
    match up f with
    | .error _ => ([f], .error "File upload failed")
    | .ok url =>
      let r := uploadAll up fs
      (f :: r.1,
        match r.2 with
        | .error e => .error e
        | .ok atts => .ok ({ url := url, type := attType f.mimetype } :: atts))

/-- Successful response body of the POST handler: the created post row
spread together with the attachments array. -/
structure CreateResponse where
  post : PostRow
  attachments : List Attachment
deriving Repr, DecidableEq

/-- Outcome of one request against the posts router: HTTP status, database
state after the request, the trace of connection/transaction/upload events,
and the JSON body on a 201. -/
structure HandlerResult where
  status : Nat
  db : DBState
  trace : List DBEvent
  body : Option CreateResponse
deriving Repr, DecidableEq

/-- The POST `/` handler body of `posts.mjs` lines 106–198.  Validation of
the three required fields happens before `pool.connect()`; inside the
transaction the post row is inserted, the files (when present) are uploaded
strictly sequentially, the attachment rows are batch-inserted, and the
transaction commits; any error after BEGIN rolls back and responds 500.
The tentative transaction-local rows only reach `DBState` at COMMIT. -/
def createPost (env : CreateEnv) (db : DBState) (userId : Nat)
    (title description content : Option String) (files : List File) : HandlerResult :=
  if falsy title || falsy description || falsy content then
    ⟨400, db, [], none⟩
  else
    match env.insertPostErr with
    | some _ => ⟨500, db, [.connect, .beginTx, .insertPost, .rollback, .release], none⟩
    | none =>
      let postRow : PostRow := ⟨db.nextPostId, userId, title, description, content⟩
      match files with
      | [] =>
        ⟨201,
         ⟨db.posts ++ [postRow], db.attachments, db.nextPostId + 1⟩,
         [.connect, .beginTx, .insertPost, .commit, .release],
         some ⟨postRow, []⟩⟩
      | f :: fs =>
        let r := uploadAll env.uploadFn (f :: fs)
        let upEvents := r.1.map DBEvent.uploadCall
        match r.2 with
        | .error _ =>
          ⟨500, db,
           [.connect, .beginTx, .insertPost] ++ upEvents ++ [.rollback, .release], none⟩
        | .ok atts =>
          match env.insertAttachErr with
          | some _ =>
            ⟨500, db,
             [.connect, .beginTx, .insertPost] ++ upEvents ++ [.insertAttachments, .rollback, .release],
             none⟩
          | none =>
            ⟨201,
             ⟨db.posts ++ [postRow],
              db.attachments ++ atts.map (fun a => ⟨db.nextPostId, a.url, a.type⟩),
              db.nextPostId + 1⟩,
             [.connect, .beginTx, .insertPost] ++ upEvents ++ [.insertAttachments, .commit, .release],
             some ⟨postRow, atts⟩⟩

/-- The files an upload call was made for, in call order, read off a trace. -/
def uploadedFiles (tr : List DBEvent) : List File :=
  tr.filterMap (fun e =>
    match e with
    | .uploadCall f => some f
    | _ => none)

/-- The full POST `/posts` route: `verifyToken` middleware first, then
`upload.array("files", 5)`, then the handler body with the authenticated
user id from the decoded claims.

Modelled from the spec: the Express error handler that turns a multer
rejection (bad MIME type, oversized file, too many files) into an HTTP
status is not under `src/`; per the spec error taxonomy, a
`ValidationError` for bad file type/size maps to 400. -/
def postCreateRoute (verify : String → Option Claims) (env : CreateEnv) (db : DBState)
    (authHeader : Option String) (title description content : Option String)
    (files : List File) : HandlerResult :=
  match verifyToken verify authHeader with
  | .unauthorized => ⟨401, db, [], none⟩
  | .forbidden => ⟨403, db, [], none⟩
  | .proceed user =>
    if multerOk files then createPost env db user.id title description content files
    else ⟨400, db, [], none⟩

/-! ## PUT and DELETE handlers (`posts.mjs` lines 201–237) -/

/-- The PUT `/:id` handler body: a single UPDATE with
`WHERE id=$4 AND user_id=$5`; 403 when `rowCount` is zero, 200 with the
updated row otherwise, 500 when the query itself fails (`dbErr`).  The
request-body fields are passed straight into the statement, absent ones as
NULL. -/
def updatePost (dbErr : Option String) (db : DBState) (postId userId : Nat)
    (title description content : Option String) : Nat × DBState :=
  match dbErr with
  | some _ => (500, db)
  | none =>
    if db.posts.any (fun p => p.id == postId && p.user_id == userId) then
      (200,
       ⟨db.posts.map (fun p =>
          if p.id == postId && p.user_id == userId then
            { p with title := title, description := description, content := content }
          else p),
        db.attachments, db.nextPostId⟩)
    else (403, db)

/-- The DELETE `/:id` handler body: a single DELETE with
`WHERE id=$1 AND user_id=$2`; 403 when `rowCount` is zero, 200 otherwise,
500 when the query itself fails. -/
def deletePost (dbErr : Option String) (db : DBState) (postId userId : Nat) : Nat × DBState :=
  match dbErr with
  | some _ => (500, db)
  | none =>
    if db.posts.any (fun p => p.id == postId && p.user_id == userId) then
      (200,
       ⟨db.posts.filter (fun p => !(p.id == postId && p.user_id == userId)),
        db.attachments, db.nextPostId⟩)
    else (403, db)

/-! ## Auth routes (register and login) -/

/-- A row of the `users` table; `password` holds the bcrypt hash. -/
structure UserRow where
  id : Nat
  name : String
  email : String
  password : String
deriving Repr, DecidableEq

/-- The bcrypt collaborator: `hash` models `bcrypt.hash(pw, 10)` (the salt
kept abstract), `compare` models `bcrypt.compare(pw, stored)`. -/
structure Crypto where
  hash : String → String
  compare : String → String → Bool

/-- The JWT payload signed at login. -/
structure JwtPayload where
  id : Nat
  email : String
deriving Repr, DecidableEq

/-- A token produced by `jwt.sign`, modelled symbolically: the payload, the
signing secret, the issue time (seconds) and the validity window. -/
structure SignedToken where
  payload : JwtPayload
  secret : String
  iat : Nat
  expSecs : Nat
deriving Repr, DecidableEq

/-- Model of `jwt.sign(payload, secret, { expiresIn: "1d" })`: one day is
86400 seconds. -/
def jwtSign (p : JwtPayload) (secret : String) (now : Nat) : SignedToken :=
  ⟨p, secret, now, 86400⟩

/-- Model of `jwt.verify(token, secret)` at time `now`: the payload when the
secret matches and the token is not yet expired, otherwise failure. -/
def jwtVerify (t : SignedToken) (secret : String) (now : Nat) : Option JwtPayload :=
  if t.secret == secret && now < t.iat + t.expSecs then some t.payload else none

/-- Successful login response body: `{ token, user: { id, name } }`. -/
structure LoginOk where
  token : SignedToken
  userId : Nat
  userName : String
deriving Repr, DecidableEq

/-- The POST `/login` handler: `SELECT * FROM users WHERE email=$1`; 404
when no row, 401 when `bcrypt.compare` rejects, otherwise 200 with a token
signed over `{ id, email }` of the stored row and `{ id, name }` echoed. -/
def login (crypto : Crypto) (secret : String) (now : Nat) (users : List UserRow)
    (email password : String) : Nat × Option LoginOk :=
  match users.find? (fun u => u.email == email) with
  | none => (404, none)
  | some u =>
    if crypto.compare password u.password then
      (200, some ⟨jwtSign ⟨u.id, u.email⟩ secret now, u.id, u.name⟩)
    else (401, none)

/-- The POST `/register` handler: hash the password, INSERT the user row,
500 on a database error.

Modelled from the spec: the schema (not under `src/`) declares `email`
unique, so the INSERT fails exactly when a row with that email exists. -/
def register (crypto : Crypto) (users : List UserRow) (nextId : Nat)
    (name email password : String) : Nat × List UserRow :=
  if users.any (fun u => u.email == email) then (500, users)
  else (201, users ++ [⟨nextId, name, email, crypto.hash password⟩])

/-! ## General lemmas about the embedded operations -/

/-- Splitting a list of characters containing no space yields that list as
the single segment. -/
theorem jsSplitSpaceAux_no_space (l : List Char) (h : ' ' ∉ l) :
    jsSplitSpaceAux l = [l] := by
  induction l with
  | nil => rfl
  | cons c cs ih =>
    have hc : ¬c = ' ' := fun hc => h (hc ▸ List.mem_cons_self c cs)
    have hcs : ' ' ∉ cs := fun hm => h (List.mem_cons_of_mem c hm)
    simp [jsSplitSpaceAux, hc, ih hcs]

/-- Splitting at the first space: a space-free part before a space starts
its own segment. -/
theorem jsSplitSpaceAux_append (l1 l2 : List Char) (h : ' ' ∉ l1) :
    jsSplitSpaceAux (l1 ++ ' ' :: l2) = l1 :: jsSplitSpaceAux l2 := by
  induction l1 with
  | nil => simp [jsSplitSpaceAux]
  | cons c cs ih =>
    have hc : ¬c = ' ' := fun hc => h (hc ▸ List.mem_cons_self c cs)
    have hcs : ' ' ∉ cs := fun hm => h (List.mem_cons_of_mem c hm)
    simp [jsSplitSpaceAux, hc, ih hcs]

/-- The upload loop attempts exactly the files up to and including the
first failing one, in their request order. -/
theorem uploadAll_fst (up : File → Except String String) (files : List File) :
    (uploadAll up files).1 =
      files.takeWhile (fun f => isOkB (up f)) ++
        (files.dropWhile (fun f => isOkB (up f))).take 1 := by
  induction files with
  | nil => rfl
  | cons f fs ih =>
    cases hf : up f with
    | error e =>
      simp [uploadAll, hf, List.takeWhile_cons, List.dropWhile_cons, isOkB]
    | ok url =>
      simp [uploadAll, hf, List.takeWhile_cons, List.dropWhile_cons, isOkB, ih]

/-- When every upload succeeds, the loop attempts all files and returns one
descriptor per file, carrying the secure URL and the derived type. -/
theorem uploadAll_ok (up : File → Except String String) (files : List File)
    (h : ∀ f ∈ files, isOkB (up f) = true) :
    uploadAll up files =
      (files, .ok (files.map (fun f => ⟨okUrl (up f), attType f.mimetype⟩))) := by
  induction files with
  | nil => rfl
  | cons f fs ih =>
    have hf : isOkB (up f) = true := h f (List.mem_cons_self f fs)
    have hfs : ∀ g ∈ fs, isOkB (up g) = true := fun g hg => h g (List.mem_cons_of_mem f hg)
    cases hup : up f with
    | error e => rw [hup] at hf; exact absurd hf (by simp [isOkB])
    | ok url =>
      have hurl : okUrl (up f) = url := by rw [hup]; rfl
      simp [uploadAll, hup, ih hfs, hurl, okUrl]

/-! ## Claim theorems -/

/-- Claim C6: an authenticated post-creation request missing title,
description, or content gets a 400 response and performs no database work:
the state is unchanged, and the empty trace shows no connection was checked
out and no transaction begun. -/
theorem createPost_missing_fields_400 (env : CreateEnv) (db : DBState) (userId : Nat)
    (title description content : Option String) (files : List File)
    (h : (falsy title || falsy description || falsy content) = true) :
    createPost env db userId title description content files = ⟨400, db, [], none⟩ ∧
    DBEvent.connect ∉ (createPost env db userId title description content files).trace ∧
    DBEvent.beginTx ∉ (createPost env db userId title description content files).trace := by
  simp [createPost, h]

theorem createPost_missing_fields_400_witness :
    createPost ⟨fun _ => .ok "u", none, none⟩ ⟨[], [], 1⟩ 7 none (some "d") (some "c") [] =
      ⟨400, ⟨[], [], 1⟩, [], none⟩ ∧
    DBEvent.connect ∉ (createPost ⟨fun _ => .ok "u", none, none⟩ ⟨[], [], 1⟩ 7 none
      (some "d") (some "c") []).trace ∧
    DBEvent.beginTx ∉ (createPost ⟨fun _ => .ok "u", none, none⟩ ⟨[], [], 1⟩ 7 none
      (some "d") (some "c") []).trace :=
  createPost_missing_fields_400 ⟨fun _ => .ok "u", none, none⟩ ⟨[], [], 1⟩ 7 none
    (some "d") (some "c") [] (by decide)

/-- Case analysis on the post-creation handler: every request either fails
validation with a 400 and untouched state, or fails inside the transaction
with a 500 and untouched state, or commits with a 201. -/
theorem createPost_status_cases (env : CreateEnv) (db : DBState) (userId : Nat)
    (title description content : Option String) (files : List File) :
    createPost env db userId title description content files = ⟨400, db, [], none⟩ ∨
    ((createPost env db userId title description content files).status = 500 ∧
      (createPost env db userId title description content files).db = db) ∨
    (createPost env db userId title description content files).status = 201 := by
  unfold createPost
  dsimp only
  repeat' split
  all_goals
    first
      | exact Or.inl rfl
      | exact Or.inr (Or.inl ⟨rfl, rfl⟩)
      | exact Or.inr (Or.inr rfl)

/-- Claim C1: once the transaction has begun (BEGIN appears in the trace),
any non-success outcome of the post-creation handler is a 500 response with
the database state exactly as before the request, so neither the post row
nor any attachment row persists after a failed request. -/
theorem createPost_failure_rolls_back (env : CreateEnv) (db : DBState) (userId : Nat)
    (title description content : Option String) (files : List File)
    (hb : DBEvent.beginTx ∈ (createPost env db userId title description content files).trace)
    (hf : (createPost env db userId title description content files).status ≠ 201) :
    (createPost env db userId title description content files).status = 500 ∧
    (createPost env db userId title description content files).db = db := by
  rcases createPost_status_cases env db userId title description content files with h | h | h
  · rw [h] at hb; simp at hb
  · exact h
  · exact absurd h hf

theorem createPost_failure_rolls_back_witness :
    (createPost ⟨fun _ => .error "boom", none, none⟩ ⟨[], [], 1⟩ 7 (some "t") (some "d")
      (some "c") [⟨"a.png", "image/png", 0, 100⟩]).status = 500 ∧
    (createPost ⟨fun _ => .error "boom", none, none⟩ ⟨[], [], 1⟩ 7 (some "t") (some "d")
      (some "c") [⟨"a.png", "image/png", 0, 100⟩]).db = ⟨[], [], 1⟩ :=
  createPost_failure_rolls_back ⟨fun _ => .error "boom", none, none⟩ ⟨[], [], 1⟩ 7
    (some "t") (some "d") (some "c") [⟨"a.png", "image/png", 0, 100⟩] (by decide) (by decide)

/-- Claim C2: an authenticated request with all required fields whose
uploads all succeed commits exactly one post row (with the new generated
id) and exactly one attachment row per file, each referencing the new post
id with the URL returned by the uploader and the type derived from the MIME
prefix, and responds 201 with the post record merged with the descriptor
array; with zero files the attachment list is empty. -/
theorem createPost_success_commits (env : CreateEnv) (db : DBState) (userId : Nat)
    (title description content : Option String) (files : List File)
    (hv : (falsy title || falsy description || falsy content) = false)
    (hp : env.insertPostErr = none) (ha : env.insertAttachErr = none)
    (hup : ∀ f ∈ files, isOkB (env.uploadFn f) = true) :
    (createPost env db userId title description content files).status = 201 ∧
    (createPost env db userId title description content files).db.posts =
      db.posts ++ [⟨db.nextPostId, userId, title, description, content⟩] ∧
    (createPost env db userId title description content files).db.attachments =
      db.attachments ++ files.map (fun f =>
        ⟨db.nextPostId, okUrl (env.uploadFn f), attType f.mimetype⟩) ∧
    (createPost env db userId title description content files).body =
      some ⟨⟨db.nextPostId, userId, title, description, content⟩,
            files.map (fun f => ⟨okUrl (env.uploadFn f), attType f.mimetype⟩)⟩ := by
  cases files with
  | nil => simp [createPost, hv, hp]
  | cons f fs =>
    have h := uploadAll_ok env.uploadFn (f :: fs) hup
    simp [createPost, hv, hp, ha, h, List.map_map, Function.comp]

theorem createPost_success_commits_witness :
    (createPost ⟨fun f => .ok ("u" ++ f.originalname), none, none⟩ ⟨[], [], 1⟩ 7 (some "t")
      (some "d") (some "c") [⟨"a.png", "image/png", 0, 100⟩, ⟨"b.mp4", "video/mp4", 1, 200⟩]).status = 201 ∧
    (createPost ⟨fun f => .ok ("u" ++ f.originalname), none, none⟩ ⟨[], [], 1⟩ 7 (some "t")
      (some "d") (some "c") [⟨"a.png", "image/png", 0, 100⟩, ⟨"b.mp4", "video/mp4", 1, 200⟩]).db.posts =
      [] ++ [⟨1, 7, some "t", some "d", some "c"⟩] ∧
    (createPost ⟨fun f => .ok ("u" ++ f.originalname), none, none⟩ ⟨[], [], 1⟩ 7 (some "t")
      (some "d") (some "c") [⟨"a.png", "image/png", 0, 100⟩, ⟨"b.mp4", "video/mp4", 1, 200⟩]).db.attachments =
      [] ++ [⟨"a.png", "image/png", 0, 100⟩, ⟨"b.mp4", "video/mp4", 1, 200⟩].map
        (fun f => ⟨1, okUrl ((fun f => Except.ok ("u" ++ f.originalname) : File → Except String String) f),
          attType f.mimetype⟩) ∧
    (createPost ⟨fun f => .ok ("u" ++ f.originalname), none, none⟩ ⟨[], [], 1⟩ 7 (some "t")
      (some "d") (some "c") [⟨"a.png", "image/png", 0, 100⟩, ⟨"b.mp4", "video/mp4", 1, 200⟩]).body =
      some ⟨⟨1, 7, some "t", some "d", some "c"⟩,
        [⟨"a.png", "image/png", 0, 100⟩, ⟨"b.mp4", "video/mp4", 1, 200⟩].map
          (fun f => ⟨okUrl ((fun f => Except.ok ("u" ++ f.originalname) : File → Except String String) f),
            attType f.mimetype⟩)⟩ :=
  createPost_success_commits ⟨fun f => .ok ("u" ++ f.originalname), none, none⟩ ⟨[], [], 1⟩ 7
    (some "t") (some "d") (some "c") [⟨"a.png", "image/png", 0, 100⟩, ⟨"b.mp4", "video/mp4", 1, 200⟩]
    (by decide) rfl rfl (by decide)

/-- Claim C3: within one request the upload calls recorded in the trace
are exactly the longest prefix of the file list on which uploads succeed,
followed by the first failing file when one exists: uploads happen
sequentially in request order and nothing is uploaded after the first
failure. -/
theorem createPost_uploads_sequential (env : CreateEnv) (db : DBState) (userId : Nat)
    (title description content : Option String) (files : List File)
    (hv : (falsy title || falsy description || falsy content) = false)
    (hp : env.insertPostErr = none) :
    uploadedFiles (createPost env db userId title description content files).trace =
      files.takeWhile (fun f => isOkB (env.uploadFn f)) ++
        (files.dropWhile (fun f => isOkB (env.uploadFn f))).take 1 := by
  cases files with
  | nil => simp [createPost, hv, hp, uploadedFiles]
  | cons f fs =>
    have hfst := uploadAll_fst env.uploadFn (f :: fs)
    simp only [createPost, hv, hp, Bool.false_eq_true, if_false]
    repeat' split
    all_goals simp [uploadedFiles, List.filterMap_append, ← List.map_take,
      List.filterMap_map, Function.comp_def, List.filterMap_some, hfst]

theorem createPost_uploads_sequential_witness :
    uploadedFiles (createPost ⟨fun f => if f.buffer == 1 then .error "x" else .ok "u", none, none⟩
      ⟨[], [], 1⟩ 7 (some "t") (some "d") (some "c")
      [⟨"a", "image/png", 0, 1⟩, ⟨"b", "image/png", 1, 1⟩, ⟨"c", "image/png", 2, 1⟩]).trace =
      [⟨"a", "image/png", 0, 1⟩, ⟨"b", "image/png", 1, 1⟩, ⟨"c", "image/png", 2, 1⟩].takeWhile
        (fun f => isOkB ((fun f => if f.buffer == 1 then Except.error "x" else Except.ok "u" :
          File → Except String String) f)) ++
      ([⟨"a", "image/png", 0, 1⟩, ⟨"b", "image/png", 1, 1⟩, ⟨"c", "image/png", 2, 1⟩].dropWhile
        (fun f => isOkB ((fun f => if f.buffer == 1 then Except.error "x" else Except.ok "u" :
          File → Except String String) f))).take 1 :=
  createPost_uploads_sequential ⟨fun f => if f.buffer == 1 then .error "x" else .ok "u", none, none⟩
    ⟨[], [], 1⟩ 7 (some "t") (some "d") (some "c")
    [⟨"a", "image/png", 0, 1⟩, ⟨"b", "image/png", 1, 1⟩, ⟨"c", "image/png", 2, 1⟩]
    (by decide) rfl

/-- Claim C4: the auth middleware gates every protected route: with no
extractable bearer token it answers 401 and the downstream handler never
runs; with a token that fails verification it answers 403; with a token
that verifies it attaches the decoded claims and the POST route proceeds to
the multer stage and the handler with the claimed user id. -/
theorem verifyToken_gates_routes (verify : String → Option Claims) (env : CreateEnv)
    (db : DBState) (title description content : Option String) (files : List File) :
    (∀ h, (extractToken h = none ∨ extractToken h = some "") →
        verifyToken verify h = .unauthorized ∧
        postCreateRoute verify env db h title description content files = ⟨401, db, [], none⟩) ∧
    (∀ h tok, extractToken h = some tok → tok ≠ "" → verify tok = none →
        verifyToken verify h = .forbidden ∧
        postCreateRoute verify env db h title description content files = ⟨403, db, [], none⟩) ∧
    (∀ h tok u, extractToken h = some tok → tok ≠ "" → verify tok = some u →
        verifyToken verify h = .proceed u ∧
        postCreateRoute verify env db h title description content files =
          (if multerOk files then createPost env db u.id title description content files
           else ⟨400, db, [], none⟩)) := by
  refine ⟨?_, ?_, ?_⟩
  · rintro h (he | he) <;> simp [verifyToken, postCreateRoute, he]
  · intro h tok he hne hv
    simp [verifyToken, postCreateRoute, he, hne, hv]
  · intro h tok u he hne hv
    simp [verifyToken, postCreateRoute, he, hne, hv]

theorem verifyToken_gates_routes_witness :
    (verifyToken (fun t => if t == "tok" then some ⟨1, "a@b"⟩ else none) none = .unauthorized ∧
      postCreateRoute (fun t => if t == "tok" then some ⟨1, "a@b"⟩ else none)
        ⟨fun _ => .ok "u", none, none⟩ ⟨[], [], 1⟩ none (some "t") (some "d") (some "c") [] =
        ⟨401, ⟨[], [], 1⟩, [], none⟩) ∧
    (verifyToken (fun t => if t == "tok" then some ⟨1, "a@b"⟩ else none) (some "Bearer bad") =
        .forbidden ∧
      postCreateRoute (fun t => if t == "tok" then some ⟨1, "a@b"⟩ else none)
        ⟨fun _ => .ok "u", none, none⟩ ⟨[], [], 1⟩ (some "Bearer bad") (some "t") (some "d")
        (some "c") [] = ⟨403, ⟨[], [], 1⟩, [], none⟩) ∧
    (verifyToken (fun t => if t == "tok" then some ⟨1, "a@b"⟩ else none) (some "Bearer tok") =
        .proceed ⟨1, "a@b"⟩ ∧
      postCreateRoute (fun t => if t == "tok" then some ⟨1, "a@b"⟩ else none)
        ⟨fun _ => .ok "u", none, none⟩ ⟨[], [], 1⟩ (some "Bearer tok") (some "t") (some "d")
        (some "c") [] =
        (if multerOk [] then
          createPost ⟨fun _ => .ok "u", none, none⟩ ⟨[], [], 1⟩ (Claims.mk 1 "a@b").id
            (some "t") (some "d") (some "c") []
         else ⟨400, ⟨[], [], 1⟩, [], none⟩)) :=
  ⟨(verifyToken_gates_routes (fun t => if t == "tok" then some ⟨1, "a@b"⟩ else none)
      ⟨fun _ => .ok "u", none, none⟩ ⟨[], [], 1⟩ (some "t") (some "d") (some "c") []).1
      none (Or.inl rfl),
   (verifyToken_gates_routes (fun t => if t == "tok" then some ⟨1, "a@b"⟩ else none)
      ⟨fun _ => .ok "u", none, none⟩ ⟨[], [], 1⟩ (some "t") (some "d") (some "c") []).2.1
      (some "Bearer bad") "bad" (by decide) (by decide) (by decide),
   (verifyToken_gates_routes (fun t => if t == "tok" then some ⟨1, "a@b"⟩ else none)
      ⟨fun _ => .ok "u", none, none⟩ ⟨[], [], 1⟩ (some "t") (some "d") (some "c") []).2.2
      (some "Bearer tok") "tok" ⟨1, "a@b"⟩ (by decide) (by decide) (by decide)⟩

/-- Claim C9: the middleware takes the second space-separated segment of
the header and never inspects the scheme word: any space-free scheme word
followed by a space and a verifying token is accepted, while a space-free
header is answered 401 even when the header value itself verifies. -/
theorem verifyToken_ignores_scheme (verify : String → Option Claims) :
    (∀ scheme tok u, ' ' ∉ scheme.toList → ' ' ∉ tok.toList → tok ≠ "" →
        verify tok = some u →
        verifyToken verify (some (scheme ++ " " ++ tok)) = .proceed u) ∧
    (∀ h u, ' ' ∉ h.toList → verify h = some u →
        verifyToken verify (some h) = .unauthorized) := by
  constructor
  · intro scheme tok u hs ht hne hv
    have happ : ∀ (a b : String), (a ++ b).toList = a.toList ++ b.toList := by
      intro a b; cases a; cases b; rfl
    have hlist : (scheme ++ " " ++ tok).toList = scheme.toList ++ ' ' :: tok.toList := by
      rw [happ, happ, List.append_assoc]; rfl
    have hsplit : jsSplitSpace (scheme ++ " " ++ tok) = [scheme, tok] := by
      unfold jsSplitSpace
      rw [hlist, jsSplitSpaceAux_append _ _ hs, jsSplitSpaceAux_no_space _ ht]
      rfl
    simp [verifyToken, extractToken, hsplit, hne, hv]
  · intro h u hh hv
    have hsplit : jsSplitSpace h = [h] := by
      unfold jsSplitSpace
      rw [jsSplitSpaceAux_no_space _ hh]
      rfl
    simp [verifyToken, extractToken, hsplit]

theorem verifyToken_ignores_scheme_witness :
    verifyToken (fun t => if t == "tok" then some ⟨1, "a@b"⟩ else none)
      (some ("Basic" ++ " " ++ "tok")) = .proceed ⟨1, "a@b"⟩ ∧
    verifyToken (fun t => if t == "tok" then some ⟨1, "a@b"⟩ else none)
      (some "tok") = .unauthorized :=
  ⟨(verifyToken_ignores_scheme (fun t => if t == "tok" then some ⟨1, "a@b"⟩ else none)).1
      "Basic" "tok" ⟨1, "a@b"⟩ (by decide) (by decide) (by decide) (by decide),
   (verifyToken_ignores_scheme (fun t => if t == "tok" then some ⟨1, "a@b"⟩ else none)).2
      "tok" ⟨1, "a@b"⟩ (by decide) (by decide)⟩

/-- Filtering away the rows matched by a predicate leaves a list on which
that predicate finds nothing. -/
theorem any_filter_not {α : Type} (l : List α) (q : α → Bool) :
    (l.filter (fun a => !(q a))).any q = false := by
  induction l with
  | nil => rfl
  | cons x xs ih =>
    cases hx : q x <;> simp [List.filter_cons, hx, ih]

/-- Deleting a post leaves no row matching that post id and owner, whether
or not the delete found one. -/
theorem deletePost_clears (db : DBState) (postId userId : Nat) :
    ((deletePost none db postId userId).2).posts.any
      (fun p => p.id == postId && p.user_id == userId) = false := by
  unfold deletePost
  dsimp only
  split
  · exact any_filter_not _ _
  · next hq => simpa using hq

/-- Claim C5: a post-creation request carrying a file with a disallowed
MIME type or a size above the 10MB cap never touches the database (state
unchanged, empty trace) whatever the auth outcome, and when the request is
authenticated it is rejected with a 400. -/
theorem bad_file_rejected_before_db (verify : String → Option Claims) (env : CreateEnv)
    (db : DBState) (authHeader : Option String) (title description content : Option String)
    (files : List File)
    (hbad : ∃ f ∈ files, fileFilterAllows f = false ∨ maxFileSize < f.size) :
    ((postCreateRoute verify env db authHeader title description content files).db = db ∧
     (postCreateRoute verify env db authHeader title description content files).trace = []) ∧
    (∀ u, verifyToken verify authHeader = .proceed u →
        postCreateRoute verify env db authHeader title description content files =
          ⟨400, db, [], none⟩) := by
  have hm : multerOk files = false := by
    rcases hbad with ⟨f, hf, hbad⟩
    unfold multerOk
    have hall : files.all (fun f => fileFilterAllows f && f.size ≤ maxFileSize) = false := by
      rw [List.all_eq_false]
      refine ⟨f, hf, ?_⟩
      rcases hbad with h1 | h2
      · simp [h1]
      · have hd : decide (f.size ≤ maxFileSize) = false :=
          decide_eq_false (Nat.not_le.mpr h2)
        simp [hd]
    simp [hall]
  constructor
  · cases hv : verifyToken verify authHeader <;> simp [postCreateRoute, hv, hm]
  · intro u hu
    simp [postCreateRoute, hu, hm]

theorem bad_file_rejected_before_db_witness :
    ((postCreateRoute (fun t => if t == "tok" then some ⟨1, "a@b"⟩ else none)
        ⟨fun _ => .ok "u", none, none⟩ ⟨[], [], 1⟩ (some "Bearer tok") (some "t") (some "d")
        (some "c") [⟨"a.txt", "text/plain", 0, 100⟩]).db = ⟨[], [], 1⟩ ∧
     (postCreateRoute (fun t => if t == "tok" then some ⟨1, "a@b"⟩ else none)
        ⟨fun _ => .ok "u", none, none⟩ ⟨[], [], 1⟩ (some "Bearer tok") (some "t") (some "d")
        (some "c") [⟨"a.txt", "text/plain", 0, 100⟩]).trace = []) ∧
    (∀ u, verifyToken (fun t => if t == "tok" then some ⟨1, "a@b"⟩ else none)
        (some "Bearer tok") = .proceed u →
      postCreateRoute (fun t => if t == "tok" then some ⟨1, "a@b"⟩ else none)
        ⟨fun _ => .ok "u", none, none⟩ ⟨[], [], 1⟩ (some "Bearer tok") (some "t") (some "d")
        (some "c") [⟨"a.txt", "text/plain", 0, 100⟩] = ⟨400, ⟨[], [], 1⟩, [], none⟩) :=
  bad_file_rejected_before_db (fun t => if t == "tok" then some ⟨1, "a@b"⟩ else none)
    ⟨fun _ => .ok "u", none, none⟩ ⟨[], [], 1⟩ (some "Bearer tok") (some "t") (some "d")
    (some "c") [⟨"a.txt", "text/plain", 0, 100⟩] (by decide)

/-- Claim C7: PUT and DELETE answer 403 with the database untouched
whenever no post row carries both the requested id and the requesting
user's id — covering a post owned by someone else and a nonexistent post —
and consequently a repeated delete, or an update after a delete, of the
same post by the same user answers 403. -/
theorem owner_mismatch_403 :
    (∀ (db : DBState) (postId userId : Nat) (title description content : Option String),
        (∀ p ∈ db.posts, ¬(p.id = postId ∧ p.user_id = userId)) →
        updatePost none db postId userId title description content = (403, db)) ∧
    (∀ (db : DBState) (postId userId : Nat),
        (∀ p ∈ db.posts, ¬(p.id = postId ∧ p.user_id = userId)) →
        deletePost none db postId userId = (403, db)) ∧
    (∀ (db : DBState) (postId userId : Nat),
        deletePost none (deletePost none db postId userId).2 postId userId =
          (403, (deletePost none db postId userId).2)) ∧
    (∀ (db : DBState) (postId userId : Nat) (title description content : Option String),
        updatePost none (deletePost none db postId userId).2 postId userId
            title description content =
          (403, (deletePost none db postId userId).2)) := by
  have hany : ∀ (db : DBState) (postId userId : Nat),
      (∀ p ∈ db.posts, ¬(p.id = postId ∧ p.user_id = userId)) →
      db.posts.any (fun p => p.id == postId && p.user_id == userId) = false := by
    intro db postId userId h
    rw [List.any_eq_false]
    intro p hp
    simpa using h p hp
  refine ⟨?_, ?_, ?_, ?_⟩
  · intro db postId userId title description content h
    simp [updatePost, hany db postId userId h]
  · intro db postId userId h
    simp [deletePost, hany db postId userId h]
  · intro db postId userId
    have hq := deletePost_clears db postId userId
    generalize hdb : (deletePost none db postId userId).2 = db1 at hq ⊢
    unfold deletePost
    dsimp only
    rw [hq]
    simp
  · intro db postId userId title description content
    have hq := deletePost_clears db postId userId
    generalize hdb : (deletePost none db postId userId).2 = db1 at hq ⊢
    unfold updatePost
    dsimp only
    rw [hq]
    simp

theorem owner_mismatch_403_witness :
    updatePost none ⟨[⟨1, 7, some "t", some "d", some "c"⟩], [], 2⟩ 1 8
        (some "x") (some "y") (some "z") =
      (403, ⟨[⟨1, 7, some "t", some "d", some "c"⟩], [], 2⟩) ∧
    deletePost none ⟨[⟨1, 7, some "t", some "d", some "c"⟩], [], 2⟩ 99 7 =
      (403, ⟨[⟨1, 7, some "t", some "d", some "c"⟩], [], 2⟩) ∧
    deletePost none
        (deletePost none ⟨[⟨1, 7, some "t", some "d", some "c"⟩], [], 2⟩ 1 7).2 1 7 =
      (403, (deletePost none ⟨[⟨1, 7, some "t", some "d", some "c"⟩], [], 2⟩ 1 7).2) :=
  ⟨owner_mismatch_403.1 ⟨[⟨1, 7, some "t", some "d", some "c"⟩], [], 2⟩ 1 8
      (some "x") (some "y") (some "z") (by decide),
   owner_mismatch_403.2.1 ⟨[⟨1, 7, some "t", some "d", some "c"⟩], [], 2⟩ 99 7 (by decide),
   owner_mismatch_403.2.2.1 ⟨[⟨1, 7, some "t", some "d", some "c"⟩], [], 2⟩ 1 7⟩

/-- Claim C10: the PUT handler performs no presence validation: it never
answers 400; with the owner row present it overwrites the three text
columns with whatever values arrived, absent ones included (written as
NULL); and a failing UPDATE statement surfaces as a 500 with the state
unchanged. -/
theorem updatePost_skips_validation :
    (∀ (dbErr : Option String) (db : DBState) (postId userId : Nat)
        (title description content : Option String),
        (updatePost dbErr db postId userId title description content).1 ≠ 400) ∧
    (∀ (db : DBState) (postId userId : Nat) (title description content : Option String)
        (p : PostRow), p ∈ db.posts → p.id = postId → p.user_id = userId →
        ({ p with title := title, description := description, content := content } : PostRow) ∈
          (updatePost none db postId userId title description content).2.posts) ∧
    (∀ (e : String) (db : DBState) (postId userId : Nat)
        (title description content : Option String),
        updatePost (some e) db postId userId title description content = (500, db)) := by
  refine ⟨?_, ?_, ?_⟩
  · intro dbErr db postId userId title description content
    unfold updatePost
    rcases dbErr with _ | e
    · dsimp only
      split <;> simp
    · simp
  · intro db postId userId title description content p hp hid huid
    have hq : (p.id == postId && p.user_id == userId) = true := by simp [hid, huid]
    have hany : db.posts.any (fun p => p.id == postId && p.user_id == userId) = true :=
      List.any_eq_true.mpr ⟨p, hp, hq⟩
    simp only [updatePost, hany, if_true]
    exact List.mem_map.mpr ⟨p, hp, by simp [hq]⟩
  · intro e db postId userId title description content
    rfl

theorem updatePost_skips_validation_witness :
    (updatePost none ⟨[⟨1, 7, some "t", some "d", some "c"⟩], [], 2⟩ 1 7
        none none none).1 ≠ 400 ∧
    ({ (⟨1, 7, some "t", some "d", some "c"⟩ : PostRow) with
        title := none, description := none, content := none } : PostRow) ∈
      (updatePost none ⟨[⟨1, 7, some "t", some "d", some "c"⟩], [], 2⟩ 1 7
        none none none).2.posts ∧
    updatePost (some "boom") ⟨[⟨1, 7, some "t", some "d", some "c"⟩], [], 2⟩ 1 7
        none none none = (500, ⟨[⟨1, 7, some "t", some "d", some "c"⟩], [], 2⟩) :=
  ⟨updatePost_skips_validation.1 none ⟨[⟨1, 7, some "t", some "d", some "c"⟩], [], 2⟩ 1 7
      none none none,
   updatePost_skips_validation.2.1 ⟨[⟨1, 7, some "t", some "d", some "c"⟩], [], 2⟩ 1 7
      none none none ⟨1, 7, some "t", some "d", some "c"⟩ (by decide) rfl rfl,
   updatePost_skips_validation.2.2 "boom" ⟨[⟨1, 7, some "t", some "d", some "c"⟩], [], 2⟩ 1 7
      none none none⟩

/-- Appending a fresh user row to a table with no row for that email makes
the email lookup find exactly the new row. -/
theorem find_email_append (users : List UserRow) (r : UserRow) (email : String)
    (h : users.any (fun u => u.email == email) = false) (hr : r.email = email) :
    (users ++ [r]).find? (fun u => u.email == email) = some r := by
  induction users with
  | nil => simp [List.find?, hr]
  | cons u us ih =>
    have hu : ¬((u.email == email) = true) :=
      List.any_eq_false.mp h u (List.mem_cons_self u us)
    have hus : us.any (fun u => u.email == email) = false := by
      rw [List.any_eq_false]
      intro x hx
      exact List.any_eq_false.mp h x (List.mem_cons_of_mem u hx)
    rw [List.cons_append, List.find?_cons_of_neg (p := fun v : UserRow => v.email == email) _ hu]
    exact ih hus

/-- Claim C8: the login route answers 404 when no user row carries the
email, 401 when the stored hash rejects the password, and otherwise 200
with a token signed with the process-wide secret over exactly the stored
id and email, expiring 24 hours (86400 seconds) after issuance; registering
a fresh email and logging in with the same credentials yields such a
verifiable token for the stored row. -/
theorem login_contract (crypto : Crypto) (secret : String) (now : Nat)
    (users : List UserRow) (email password : String) :
    (users.find? (fun u => u.email == email) = none →
        login crypto secret now users email password = (404, none)) ∧
    (∀ u, users.find? (fun u => u.email == email) = some u →
        crypto.compare password u.password = false →
        login crypto secret now users email password = (401, none)) ∧
    (∀ u, users.find? (fun u => u.email == email) = some u →
        crypto.compare password u.password = true →
        login crypto secret now users email password =
          (200, some ⟨⟨⟨u.id, u.email⟩, secret, now, 86400⟩, u.id, u.name⟩) ∧
        (∀ later, jwtVerify ⟨⟨u.id, u.email⟩, secret, now, 86400⟩ secret later =
            some ⟨u.id, u.email⟩ ↔ later < now + 86400)) ∧
    (∀ name nextId, users.any (fun u => u.email == email) = false →
        crypto.compare password (crypto.hash password) = true →
        register crypto users nextId name email password =
          (201, users ++ [⟨nextId, name, email, crypto.hash password⟩]) ∧
        login crypto secret now (users ++ [⟨nextId, name, email, crypto.hash password⟩])
            email password =
          (200, some ⟨⟨⟨nextId, email⟩, secret, now, 86400⟩, nextId, name⟩) ∧
        jwtVerify ⟨⟨nextId, email⟩, secret, now, 86400⟩ secret now =
          some ⟨nextId, email⟩) := by
  refine ⟨?_, ?_, ?_, ?_⟩
  · intro h
    simp [login, h]
  · intro u h hc
    simp [login, h, hc]
  · intro u h hc
    refine ⟨by simp [login, h, hc, jwtSign], ?_⟩
    intro later
    constructor
    · intro hv
      by_contra hlt
      have : ¬(later < now + 86400) := hlt
      simp [jwtVerify, this] at hv
    · intro hlt
      simp [jwtVerify, hlt]
  · intro name nextId hfresh hcmp
    have hfind := find_email_append users ⟨nextId, name, email, crypto.hash password⟩ email hfresh rfl
    refine ⟨by simp [register, hfresh], ?_, ?_⟩
    · simp [login, hfind, hcmp, jwtSign]
    · simp [jwtVerify]

theorem login_contract_witness :
    login ⟨fun p => "h" ++ p, fun p h => h == "h" ++ p⟩ "sec" 0
        [⟨1, "nm", "a@b", "hpw"⟩] "x@y" "pw" = (404, none) ∧
    login ⟨fun p => "h" ++ p, fun p h => h == "h" ++ p⟩ "sec" 0
        [⟨1, "nm", "a@b", "hpw"⟩] "a@b" "pw" =
      (200, some ⟨⟨⟨1, "a@b"⟩, "sec", 0, 86400⟩, 1, "nm"⟩) ∧
    (register ⟨fun p => "h" ++ p, fun p h => h == "h" ++ p⟩ [⟨1, "nm", "a@b", "hpw"⟩] 2
        "nm2" "c@d" "pw2" =
      (201, [⟨1, "nm", "a@b", "hpw"⟩] ++ [⟨2, "nm2", "c@d",
        (⟨fun p => "h" ++ p, fun p h => h == "h" ++ p⟩ : Crypto).hash "pw2"⟩]) ∧
     login ⟨fun p => "h" ++ p, fun p h => h == "h" ++ p⟩ "sec" 0
        ([⟨1, "nm", "a@b", "hpw"⟩] ++ [⟨2, "nm2", "c@d",
          (⟨fun p => "h" ++ p, fun p h => h == "h" ++ p⟩ : Crypto).hash "pw2"⟩]) "c@d" "pw2" =
      (200, some ⟨⟨⟨2, "c@d"⟩, "sec", 0, 86400⟩, 2, "nm2"⟩) ∧
     jwtVerify ⟨⟨2, "c@d"⟩, "sec", 0, 86400⟩ "sec" 0 = some ⟨2, "c@d"⟩) :=
  ⟨(login_contract ⟨fun p => "h" ++ p, fun p h => h == "h" ++ p⟩ "sec" 0
      [⟨1, "nm", "a@b", "hpw"⟩] "x@y" "pw").1 (by decide),
   ((login_contract ⟨fun p => "h" ++ p, fun p h => h == "h" ++ p⟩ "sec" 0
      [⟨1, "nm", "a@b", "hpw"⟩] "a@b" "pw").2.2.1 ⟨1, "nm", "a@b", "hpw"⟩
      (by decide) (by decide)).1,
   (login_contract ⟨fun p => "h" ++ p, fun p h => h == "h" ++ p⟩ "sec" 0
      [⟨1, "nm", "a@b", "hpw"⟩] "c@d" "pw2").2.2.2 "nm2" 2 (by decide) (by decide)⟩
